import Mathlib

/-!
# Stripe subscription synchronisation (functions/index.js)

A shallow embedding of the four Cloud Functions exported by
`functions/index.js`:

* `createStripeCustomer`         (auth `onCreate` trigger)
* `createSubscription`           (callable)
* `createCustomerPortalSession`  (callable)
* `stripeWebhook`                (HTTPS request handler)

The Firestore `users` collection is an explicit value that every handler
receives and returns.  Calls to the Stripe API are external: their answers
are parameters of the handlers, and every call that is made is recorded in
the list of effects of the handler's outcome, next to the Firestore
operations.  A JavaScript exception is a value of `Except`/`Option`.
-/

namespace StripeSubscription

/-! ## Data model -/

/-- Firestore `Timestamp`: whole seconds since the epoch and the nanoseconds
within the second. -/
structure Timestamp where
  seconds : Int
  nanoseconds : Int
deriving DecidableEq

/-- The smallest number of seconds a Firestore `Timestamp` accepts
(0001-01-01T00:00:00Z). -/
def Timestamp.MIN_SECONDS : Int := -62135596800

/-- The largest number of seconds a Firestore `Timestamp` accepts
(9999-12-31T23:59:59Z). -/
def Timestamp.MAX_SECONDS : Int := 253402300799

/-- The milliseconds since the epoch of a timestamp (`toMillis`). -/
def Timestamp.toMillis (t : Timestamp) : Int :=
  t.seconds * 1000 + t.nanoseconds / 1000000

/-- Model of `admin.firestore.Timestamp.fromMillis(milliseconds)`, of the
Firestore library: `seconds = Math.floor(milliseconds / 1000)`, the rest goes
to the nanoseconds, and the constructor throws when `seconds` is not an
integer of the accepted range.  The argument `none` is the number `NaN`. -/
def Timestamp.fromMillis (milliseconds : Option Int) : Except String Timestamp :=
  match milliseconds with
  | none => .error "Value for argument seconds is not a valid integer."
  | some ms =>
    let seconds := ms / 1000
    let nanos := (ms - seconds * 1000) * 1000000
    if seconds < Timestamp.MIN_SECONDS ∨ Timestamp.MAX_SECONDS < seconds then
      .error "Value for argument seconds must be within the accepted range."
    else .ok ⟨seconds, nanos⟩

/-- The fields of a document of the `users` collection that the functions
read or write.  A field that is absent from the document is `none`. -/
structure UserData where
  stripeCustomerId : Option String
  email : Option String
  subscriptionId : Option String
  subscriptionStatus : Option String
  priceId : Option String
  subscriptionPeriodEnd : Option Timestamp
deriving DecidableEq

/-- A document of the `users` collection: its id (the Firebase uid) and its data. -/
structure UserDoc where
  id : String
  data : UserData
deriving DecidableEq

/-- The `users` collection, listed in the order in which a query returns
its documents. -/
abbrev Users := List UserDoc

/-- A value written to a field by `update`: a plain value or the sentinel
`admin.firestore.FieldValue.delete()`. -/
inductive FieldValue (α : Type) where
  | value (a : α)
  | delete
deriving DecidableEq

/-- The content of a field after the write. -/
def FieldValue.stored {α : Type} : FieldValue α → Option α
  | .value a => some a
  | .delete => none

/-- The argument of the two `userDoc.ref.update({...})` calls of `stripeWebhook`:
both name the same four fields. -/
structure SubscriptionUpdate where
  subscriptionId : FieldValue String
  subscriptionStatus : FieldValue String
  priceId : FieldValue String
  subscriptionPeriodEnd : FieldValue Timestamp
deriving DecidableEq

/-- The effect of `update` on the data of one document: the four named
fields are overwritten (or deleted), the others are kept. -/
def UserData.update (d : UserData) (u : SubscriptionUpdate) : UserData :=
  { d with
    subscriptionId := u.subscriptionId.stored
    subscriptionStatus := u.subscriptionStatus.stored
    priceId := u.priceId.stored
    subscriptionPeriodEnd := u.subscriptionPeriodEnd.stored }

/-- Model of `collection("users").where("stripeCustomerId", "==", customerId).get()`:
the documents whose field equals the customer id (`usersSnapshot.docs`). -/
def Users.whereCustomer (users : Users) (customerId : String) : List UserDoc :=
  users.filter (fun d => d.data.stripeCustomerId == some customerId)

/-- Model of `collection("users").doc(uid).get()`: `none` when `!userDoc.exists`. -/
def Users.doc (users : Users) (uid : String) : Option UserDoc :=
  users.find? (fun d => d.id == uid)

/-- Model of `ref.update(u)` for the reference of the document with id `uid`. -/
def Users.update (users : Users) (uid : String) (u : SubscriptionUpdate) : Users :=
  users.map (fun d => if d.id = uid then { d with data := d.data.update u } else d)

/-- Model of `collection("users").doc(uid).set({stripeCustomerId, email}, {merge: true})`:
the two fields are written into the document, which is created when it does
not exist yet.  The email `none` is the value `null` of a user without an
email address, which Firestore stores. -/
def Users.setMerge (users : Users) (uid : String) (customerId : String)
    (email : Option String) : Users :=
  match users.doc uid with
  | some _ =>
    users.map (fun d =>
      if d.id = uid then
        { d with data := { d.data with stripeCustomerId := some customerId, email := email } }
      else d)
  | none =>
    users ++ [⟨uid, ⟨some customerId, email, none, none, none, none⟩⟩]

/-- An operation on Firestore or on the Stripe API performed by a handler. -/
inductive Effect where
  | firestoreQuery (customerId : String)
  | firestoreGet (uid : String)
  | firestoreUpdate (uid : String) (u : SubscriptionUpdate)
  | firestoreSet (uid : String) (customerId : String) (email : Option String)
  | stripeCustomersCreate (email : Option String) (firebaseUID : String)
  | stripeSubscriptionsCreate (customer : String) (price : Option String)
  | stripePortalSessionsCreate (customer : String) (returnUrl : Option String)
deriving DecidableEq

/-- JavaScript truthiness of a value that is a string or `undefined`. -/
def truthy : Option String → Bool
  | some s => s != ""
  | none => false

/-! ## stripeWebhook -/

/-- The price of a subscription item (`item.price`). -/
structure Price where
  id : String
deriving DecidableEq

/-- An entry of `subscription.items.data`. -/
structure SubscriptionItem where
  price : Price
deriving DecidableEq

/-- The subscription object carried by a `customer.subscription.*` event
(`event.data.object`); `items` is `subscription.items.data`, and
`current_period_end` is a whole number of seconds, `none` when the object has
no such property. -/
structure Subscription where
  id : String
  customer : String
  status : String
  items : List SubscriptionItem
  current_period_end : Option Int
deriving DecidableEq

/-- A Stripe event as returned by `stripe.webhooks.constructEvent`; `object`
is `event.data.object`, `created` is the event's timestamp. -/
structure Event where
  id : String
  type : String
  created : Int
  object : Subscription
deriving DecidableEq

/-- The environment variables read by `stripeWebhook`. -/
structure Env where
  FUNCTIONS_EMULATOR : Option String
  STRIPE_TEST_WEBHOOK_SECRET : Option String
  STRIPE_WEBHOOK_SECRET : Option String

/-- The HTTP request: its headers and `req.rawBody`. -/
structure Request where
  headers : List (String × String)
  rawBody : String

/-- Body of an HTTP response: `res.send(text)` or `res.json({received: true})`. -/
inductive ResponseBody where
  | text (s : String)
  | received
deriving DecidableEq

/-- The HTTP response of `stripeWebhook`. -/
structure Response where
  status : Nat
  body : ResponseBody
deriving DecidableEq

/-- The acknowledgment `res.json({received: true})` (status 200). -/
def Response.ack : Response := ⟨200, .received⟩

/-- The signature verification `stripe.webhooks.constructEvent(rawBody, signature, secret)`:
it returns the parsed event or throws. -/
abbrev ConstructEvent := String → Option String → Option String → Except String Event

/-- What a run of a handler leaves behind: the collection, the operations
performed, and the value returned (or thrown) to the caller. -/
structure Outcome (ρ : Type) where
  users : Users
  effects : List Effect
  result : ρ

/-- The `switch (event.type)` of `stripeWebhook` (the body of its second `try`):
`result` is `some msg` when an exception with message `msg` is thrown.  The
argument of `update` is evaluated before the call, field by field: reading
`items.data[0].price` throws for an empty list, then `Timestamp.fromMillis`
throws for a period end it does not accept, and nothing is written. -/
def handleEvent (users : Users) (event : Event) : Outcome (Option String) :=
  if event.type = "customer.subscription.created" ∨
      event.type = "customer.subscription.updated" then
    let subscription := event.object
    let customerId := subscription.customer
    let usersSnapshot := users.whereCustomer customerId
    match usersSnapshot with
    | [] => ⟨users, [.firestoreQuery customerId], none⟩
    | userDoc :: _ =>
      match subscription.items with
      | [] =>
        ⟨users, [.firestoreQuery customerId],
          some "TypeError: cannot read property price of undefined"⟩
      | item :: _ =>
        match Timestamp.fromMillis (subscription.current_period_end.map (· * 1000)) with
        | .error msg => ⟨users, [.firestoreQuery customerId], some msg⟩
        | .ok subscriptionPeriodEnd =>
          let u : SubscriptionUpdate :=
            { subscriptionId := .value subscription.id
              subscriptionStatus := .value subscription.status
              priceId := .value item.price.id
              subscriptionPeriodEnd := .value subscriptionPeriodEnd }
          ⟨users.update userDoc.id u,
            [.firestoreQuery customerId, .firestoreUpdate userDoc.id u], none⟩
  else if event.type = "customer.subscription.deleted" then
    let subscription := event.object
    let customerId := subscription.customer
    let usersSnapshot := users.whereCustomer customerId
    match usersSnapshot with
    | [] => ⟨users, [.firestoreQuery customerId], none⟩
    | userDoc :: _ =>
      let u : SubscriptionUpdate :=
        { subscriptionId := .delete
          subscriptionStatus := .value "canceled"
          priceId := .delete
          subscriptionPeriodEnd := .delete }
      ⟨users.update userDoc.id u,
        [.firestoreQuery customerId, .firestoreUpdate userDoc.id u], none⟩
  else
    ⟨users, [], none⟩

/-- The `webhookSecret` of `stripeWebhook`: the test secret in the emulator. -/
def webhookSecret (env : Env) : Option String :=
  if truthy env.FUNCTIONS_EMULATOR then env.STRIPE_TEST_WEBHOOK_SECRET
  else env.STRIPE_WEBHOOK_SECRET

/-- The `signature` of `stripeWebhook`: `req.headers["stripe-signature"]`. -/
def signature (req : Request) : Option String :=
  req.headers.lookup "stripe-signature"

/-- The handler `stripeWebhook`. -/
def stripeWebhook (constructEvent : ConstructEvent) (env : Env) (users : Users)
    (req : Request) : Outcome Response :=
  match constructEvent req.rawBody (signature req) (webhookSecret env) with
  | .error _ => ⟨users, [], ⟨400, .text "Webhook signature verification failed"⟩⟩
  | .ok event =>
    let o := handleEvent users event
    match o.result with
    | none => ⟨o.users, o.effects, Response.ack⟩
    | some _ => ⟨o.users, o.effects, ⟨500, .text "Webhook processing failed"⟩⟩

/-! ## createStripeCustomer -/

/-- The user record passed to the `onCreate` trigger (`user.uid`, `user.email`);
the email of a user without an email address is `null`, here `none`. -/
structure AuthUser where
  uid : String
  email : Option String

/-- The customer object returned by `stripe.customers.create`. -/
structure Customer where
  id : String
deriving DecidableEq

/-- The call `stripe.customers.create({email, metadata: {firebaseUID}})`:
it returns the new customer or throws. -/
abbrev CustomersCreate := Option String → String → Except String Customer

/-- The trigger `createStripeCustomer`.  An error is logged and thrown again.
The email of a user without an email address is `null` (`none`), which is
passed on to both calls. -/
def createStripeCustomer (customersCreate : CustomersCreate) (users : Users)
    (user : AuthUser) : Outcome (Except String Customer) :=
  match customersCreate user.email user.uid with
  | .error e => ⟨users, [.stripeCustomersCreate user.email user.uid], .error e⟩
  | .ok customer =>
    ⟨users.setMerge user.uid customer.id user.email,
      [.stripeCustomersCreate user.email user.uid,
        .firestoreSet user.uid customer.id user.email],
      .ok customer⟩

/-! ## createSubscription and createCustomerPortalSession -/

/-- The error `functions.https.HttpsError(code, message)` received by the caller. -/
structure HttpsError where
  code : String
  message : String
deriving DecidableEq

/-- What a `try` block can throw: an `HttpsError` or another error with a message. -/
inductive Thrown where
  | https (e : HttpsError)
  | other (message : String)
deriving DecidableEq

/-- The `error.message` read by the `catch` blocks. -/
def Thrown.message : Thrown → String
  | .https e => e.message
  | .other m => m

/-- The `context` of a callable: `context.auth.uid` when `context.auth` is set. -/
structure CallableContext where
  auth : Option String

/-- The `data` of `createSubscription`. -/
structure SubscriptionData where
  priceId : Option String

/-- The payment intent of an invoice, as expanded. -/
structure PaymentIntent where
  client_secret : String
deriving DecidableEq

/-- The latest invoice of a subscription, as expanded. -/
structure Invoice where
  payment_intent : Option PaymentIntent
deriving DecidableEq

/-- The subscription returned by `stripe.subscriptions.create`. -/
structure CreatedSubscription where
  id : String
  latest_invoice : Option Invoice
deriving DecidableEq

/-- The call `stripe.subscriptions.create({customer, items: [{price}],
payment_behavior: "default_incomplete", expand: [...]})`. -/
abbrev SubscriptionsCreate := String → Option String → Except String CreatedSubscription

/-- The value returned by `createSubscription`. -/
structure SubscriptionResult where
  subscriptionId : String
  clientSecret : String
deriving DecidableEq

/-- The body of the `try` block of `createSubscription`. -/
def createSubscriptionTry (subscriptionsCreate : SubscriptionsCreate) (users : Users)
    (priceId : Option String) (userId : String) :
    Outcome (Except Thrown SubscriptionResult) :=
  match users.doc userId with
  | none =>
    ⟨users, [.firestoreGet userId], .error (.https ⟨"not-found", "User document not found"⟩)⟩
  | some userDoc =>
    let stripeCustomerId := userDoc.data.stripeCustomerId
    match stripeCustomerId with
    | none =>
      ⟨users, [.firestoreGet userId],
        .error (.https ⟨"failed-precondition", "User has no associated Stripe customer"⟩)⟩
    | some customer =>
      if customer = "" then
        ⟨users, [.firestoreGet userId],
          .error (.https ⟨"failed-precondition", "User has no associated Stripe customer"⟩)⟩
      else
        match subscriptionsCreate customer priceId with
        | .error m =>
          ⟨users, [.firestoreGet userId, .stripeSubscriptionsCreate customer priceId],
            .error (.other m)⟩
        | .ok subscription =>
          match subscription.latest_invoice with
          | none =>
            ⟨users, [.firestoreGet userId, .stripeSubscriptionsCreate customer priceId],
              .error (.other "TypeError: cannot read property payment_intent of null")⟩
          | some invoice =>
            match invoice.payment_intent with
            | none =>
              ⟨users, [.firestoreGet userId, .stripeSubscriptionsCreate customer priceId],
                .error (.other "TypeError: cannot read property client_secret of null")⟩
            | some intent =>
              ⟨users, [.firestoreGet userId, .stripeSubscriptionsCreate customer priceId],
                .ok ⟨subscription.id, intent.client_secret⟩⟩

/-- The callable `createSubscription`: the `catch` block turns whatever the
`try` block throws into `HttpsError("internal", error.message)`. -/
def createSubscription (subscriptionsCreate : SubscriptionsCreate) (users : Users)
    (data : SubscriptionData) (context : CallableContext) :
    Outcome (Except HttpsError SubscriptionResult) :=
  match context.auth with
  | none => ⟨users, [], .error ⟨"unauthenticated", "You must be logged in to subscribe"⟩⟩
  | some userId =>
    let o := createSubscriptionTry subscriptionsCreate users data.priceId userId
    match o.result with
    | .error error => ⟨o.users, o.effects, .error ⟨"internal", error.message⟩⟩
    | .ok r => ⟨o.users, o.effects, .ok r⟩

/-- The `data` of `createCustomerPortalSession`. -/
structure PortalData where
  returnUrl : Option String

/-- The session returned by `stripe.billingPortal.sessions.create`. -/
structure PortalSession where
  url : String
deriving DecidableEq

/-- The call `stripe.billingPortal.sessions.create({customer, return_url})`. -/
abbrev PortalSessionsCreate := String → Option String → Except String PortalSession

/-- The body of the `try` block of `createCustomerPortalSession`. -/
def createCustomerPortalSessionTry (sessionsCreate : PortalSessionsCreate) (users : Users)
    (returnUrl : Option String) (userId : String) : Outcome (Except Thrown PortalSession) :=
  match users.doc userId with
  | none =>
    ⟨users, [.firestoreGet userId], .error (.https ⟨"not-found", "User document not found"⟩)⟩
  | some userDoc =>
    let stripeCustomerId := userDoc.data.stripeCustomerId
    match stripeCustomerId with
    | none =>
      ⟨users, [.firestoreGet userId],
        .error (.https ⟨"failed-precondition", "No Stripe customer found"⟩)⟩
    | some customer =>
      if customer = "" then
        ⟨users, [.firestoreGet userId],
          .error (.https ⟨"failed-precondition", "No Stripe customer found"⟩)⟩
      else
        match sessionsCreate customer returnUrl with
        | .error m =>
          ⟨users, [.firestoreGet userId, .stripePortalSessionsCreate customer returnUrl],
            .error (.other m)⟩
        | .ok session =>
          ⟨users, [.firestoreGet userId, .stripePortalSessionsCreate customer returnUrl],
            .ok ⟨session.url⟩⟩

/-- The callable `createCustomerPortalSession`, with the same `catch` block. -/
def createCustomerPortalSession (sessionsCreate : PortalSessionsCreate) (users : Users)
    (data : PortalData) (context : CallableContext) :
    Outcome (Except HttpsError PortalSession) :=
  match context.auth with
  | none =>
    ⟨users, [],
      .error ⟨"unauthenticated", "You must be logged in to access the customer portal"⟩⟩
  | some userId =>
    let o := createCustomerPortalSessionTry sessionsCreate users data.returnUrl userId
    match o.result with
    | .error error => ⟨o.users, o.effects, .error ⟨"internal", error.message⟩⟩
    | .ok r => ⟨o.users, o.effects, .ok r⟩

/-- The document with id `uid` rewritten by `update`, the others untouched. -/
def UserDoc.patch (uid : String) (u : SubscriptionUpdate) (d : UserDoc) : UserDoc :=
  if d.id = uid then { d with data := d.data.update u } else d

/-- The write that `handleEvent` performs for an event once a user document
is found: `none` when the event type is not handled, when
`subscription.items.data[0]` is undefined or when `Timestamp.fromMillis` throws. -/
def Event.write (event : Event) : Option SubscriptionUpdate :=
  if event.type = "customer.subscription.created" ∨
      event.type = "customer.subscription.updated" then
    match event.object.items with
    | [] => none
    | item :: _ =>
      match Timestamp.fromMillis (event.object.current_period_end.map (· * 1000)) with
      | .error _ => none
      | .ok subscriptionPeriodEnd =>
        some
          { subscriptionId := .value event.object.id
            subscriptionStatus := .value event.object.status
            priceId := .value item.price.id
            subscriptionPeriodEnd := .value subscriptionPeriodEnd }
  else if event.type = "customer.subscription.deleted" then
    some
      { subscriptionId := .delete
        subscriptionStatus := .value "canceled"
        priceId := .delete
        subscriptionPeriodEnd := .delete }
  else none

/-- A call of one of the two functions that write the collection. -/
inductive Call where
  | userCreated (user : AuthUser)
  | webhook (req : Request)

/-- The collection after a sequence of calls, starting from `users`. -/
def run (customersCreate : CustomersCreate) (constructEvent : ConstructEvent) (env : Env) :
    Users → List Call → Users
  | users, [] => users
  | users, .userCreated user :: calls =>
    run customersCreate constructEvent env
      (createStripeCustomer customersCreate users user).users calls
  | users, .webhook req :: calls =>
    run customersCreate constructEvent env
      (stripeWebhook constructEvent env users req).users calls

/-- The subscription fields of a record are present together or absent
together, and when they are absent the status is unset or `canceled`. -/
def UserData.subscriptionInvariant (d : UserData) : Prop :=
  (d.subscriptionId = none ∧ d.priceId = none ∧ d.subscriptionPeriodEnd = none ∧
      (d.subscriptionStatus = none ∨ d.subscriptionStatus = some "canceled")) ∨
  (d.subscriptionId ≠ none ∧ d.priceId ≠ none ∧ d.subscriptionPeriodEnd ≠ none ∧
      d.subscriptionStatus ≠ none)

/-! ## Concrete inputs -/

/-- A verification that accepts exactly the listed raw bodies, whatever the
signature, and throws for any other body. -/
def verifyFrom (table : List (String × Event)) : ConstructEvent :=
  fun rawBody _ _ =>
    match table.lookup rawBody with
    | some event => .ok event
    | none => .error "No signatures found matching the expected signature for payload"

/-- An environment outside the emulator. -/
def liveEnv : Env := ⟨none, none, some "whsec_live"⟩

/-- A request with a signature header and the given raw body. -/
def requestOf (rawBody : String) : Request := ⟨[("stripe-signature", "t=1,v1=00")], rawBody⟩

/-- A record as `createStripeCustomer` creates it, linked to customer `cus_1`. -/
def freshUsers : Users :=
  [⟨"u1", ⟨some "cus_1", some "a@example.com", none, none, none, none⟩⟩]

/-- A record that exists but has no `stripeCustomerId`. -/
def unlinkedUsers : Users :=
  [⟨"u1", ⟨none, some "a@example.com", none, none, none, none⟩⟩]

/-- The event `customer.subscription.created` for `cus_1`, at time 10. -/
def createdEvent : Event :=
  ⟨"evt_1", "customer.subscription.created", 10,
    ⟨"sub_1", "cus_1", "incomplete", [⟨⟨"price_1"⟩⟩], some 1700000000⟩⟩

/-- The event `customer.subscription.updated` for `cus_1`, at time 20. -/
def updatedEvent : Event :=
  ⟨"evt_2", "customer.subscription.updated", 20,
    ⟨"sub_1", "cus_1", "active", [⟨⟨"price_1"⟩⟩], some 1702592000⟩⟩

/-- The event `customer.subscription.updated` for `cus_1` carrying the status `canceled`. -/
def canceledUpdateEvent : Event :=
  ⟨"evt_3", "customer.subscription.updated", 30,
    ⟨"sub_1", "cus_1", "canceled", [⟨⟨"price_1"⟩⟩], some 1702592000⟩⟩

/-- The event `customer.subscription.deleted` for `cus_1`. -/
def deletedEvent : Event :=
  ⟨"evt_4", "customer.subscription.deleted", 40,
    ⟨"sub_1", "cus_1", "canceled", [⟨⟨"price_1"⟩⟩], some 1702592000⟩⟩

/-- An event for a customer that no record is linked to. -/
def strangerEvent : Event :=
  ⟨"evt_5", "customer.subscription.updated", 50,
    ⟨"sub_9", "cus_9", "active", [⟨⟨"price_1"⟩⟩], some 1702592000⟩⟩

/-- An `updated` event for `cus_1` whose period ends one second after the last
second that a Firestore timestamp accepts. -/
def farFutureEvent : Event :=
  ⟨"evt_7", "customer.subscription.updated", 70,
    ⟨"sub_1", "cus_1", "active", [⟨⟨"price_1"⟩⟩], some 253402300800⟩⟩

/-- An event of a type that the handler does not reconcile. -/
def invoiceEvent : Event :=
  ⟨"evt_6", "invoice.paid", 60,
    ⟨"in_1", "cus_1", "paid", [], none⟩⟩

/-- The verification used in the examples. -/
def exampleVerify : ConstructEvent :=
  verifyFrom [("created", createdEvent), ("updated", updatedEvent),
    ("canceled", canceledUpdateEvent), ("deleted", deletedEvent),
    ("stranger", strangerEvent), ("invoice", invoiceEvent),
    ("farFuture", farFutureEvent)]

/-- A processor that answers every `customers.create` with the customer `cus_1`. -/
def firstCustomer : CustomersCreate := fun _ _ => .ok ⟨"cus_1"⟩

/-- A processor that answers every `customers.create` with a new customer `cus_2`. -/
def secondCustomer : CustomersCreate := fun _ _ => .ok ⟨"cus_2"⟩

/-- A processor that would create the subscription `sub_1`. -/
def exampleSubscriptions : SubscriptionsCreate :=
  fun _ _ => .ok ⟨"sub_1", some ⟨some ⟨"pi_1_secret"⟩⟩⟩

/-- A processor that would open a portal session. -/
def exampleSessions : PortalSessionsCreate :=
  fun _ _ => .ok ⟨"https://billing.stripe.com/session/1"⟩

/-! ## Lemmas on the collection -/

theorem Users.update_eq_map (users : Users) (uid : String) (u : SubscriptionUpdate) :
    users.update uid u = users.map (UserDoc.patch uid u) := rfl

theorem UserDoc.patch_id (uid : String) (u : SubscriptionUpdate) (d : UserDoc) :
    (d.patch uid u).id = d.id := by
  unfold UserDoc.patch; split <;> rfl

theorem UserDoc.patch_customer (uid : String) (u : SubscriptionUpdate) (d : UserDoc) :
    (d.patch uid u).data.stripeCustomerId = d.data.stripeCustomerId := by
  unfold UserDoc.patch; split <;> rfl

theorem UserDoc.patch_patch (uid : String) (u v : SubscriptionUpdate) (d : UserDoc) :
    (d.patch uid u).patch uid v = d.patch uid v := by
  unfold UserDoc.patch
  by_cases h : d.id = uid <;> simp [h, UserData.update]

/-- A query sees the same documents, rewritten, after an `update`. -/
theorem Users.whereCustomer_update (users : Users) (uid c : String) (u : SubscriptionUpdate) :
    (users.update uid u).whereCustomer c = (users.whereCustomer c).map (UserDoc.patch uid u) := by
  induction users with
  | nil => rfl
  | cons d ds ih =>
    have ih2 : List.filter (fun d => d.data.stripeCustomerId == some c)
        (List.map (UserDoc.patch uid u) ds) =
        List.map (UserDoc.patch uid u)
          (List.filter (fun d => d.data.stripeCustomerId == some c) ds) := ih
    simp only [Users.update_eq_map, Users.whereCustomer, List.map_cons, List.filter_cons,
      UserDoc.patch_customer]
    split <;> simp [ih2]

/-- A second `update` of the same document overwrites the first. -/
theorem Users.update_update (users : Users) (uid : String) (u v : SubscriptionUpdate) :
    (users.update uid u).update uid v = users.update uid v := by
  simp only [Users.update_eq_map, List.map_map]
  apply List.map_congr_left
  intro d _
  exact UserDoc.patch_patch uid u v d

/-- Reading a document after an `update`. -/
theorem Users.doc_update (users : Users) (uid uid2 : String) (u : SubscriptionUpdate) :
    (users.update uid u).doc uid2 = (users.doc uid2).map (UserDoc.patch uid u) := by
  induction users with
  | nil => rfl
  | cons d ds ih =>
    have ih2 : List.find? (fun d => d.id == uid2) (List.map (UserDoc.patch uid u) ds) =
        Option.map (UserDoc.patch uid u) (List.find? (fun d => d.id == uid2) ds) := ih
    simp only [Users.update_eq_map, Users.doc, List.map_cons, List.find?_cons,
      UserDoc.patch_id]
    split <;> simp [ih2]

/-- A document returned by a query can be read by its id. -/
theorem Users.doc_of_whereCustomer (users : Users) (c : String) (d : UserDoc)
    (rest : List UserDoc) (h : users.whereCustomer c = d :: rest) :
    ∃ d0, users.doc d.id = some d0 ∧ d0.id = d.id := by
  have hmem : d ∈ users := by
    have : d ∈ users.whereCustomer c := by rw [h]; exact List.mem_cons_self _ _
    exact (List.mem_filter.mp this).1
  cases hf : users.doc d.id with
  | none =>
    have := List.find?_eq_none.mp hf d hmem
    simp at this
  | some d0 =>
    refine ⟨d0, rfl, ?_⟩
    have := List.find?_some hf
    simpa using this

/-! ## Lemmas on stripeWebhook -/

/-- The collection after `handleEvent`: the first document of the query is
updated with the write of the event, when there are both. -/
theorem handleEvent_users (users : Users) (event : Event) :
    (handleEvent users event).users =
      match event.write, users.whereCustomer event.object.customer with
      | some u, d :: _ => users.update d.id u
      | _, _ => users := by
  unfold handleEvent Event.write
  by_cases h1 : event.type = "customer.subscription.created" ∨
      event.type = "customer.subscription.updated"
  · simp only [h1, if_true]
    cases hq : users.whereCustomer event.object.customer with
    | nil =>
      cases hi : event.object.items with
      | nil => simp
      | cons item items =>
        cases hf : Timestamp.fromMillis (event.object.current_period_end.map (· * 1000)) <;>
          simp
    | cons d rest =>
      cases hi : event.object.items with
      | nil => simp
      | cons item items =>
        cases hf : Timestamp.fromMillis (event.object.current_period_end.map (· * 1000)) <;>
          simp
  · simp only [h1, if_false]
    by_cases h2 : event.type = "customer.subscription.deleted"
    · simp only [h2, if_true]
      cases hq : users.whereCustomer event.object.customer <;> simp
    · simp only [h2, if_false]

/-- The collection after `stripeWebhook` for a verified event. -/
theorem stripeWebhook_users_of_verified (constructEvent : ConstructEvent) (env : Env)
    (users : Users) (req : Request) (event : Event)
    (hv : constructEvent req.rawBody (signature req) (webhookSecret env) = .ok event) :
    (stripeWebhook constructEvent env users req).users = (handleEvent users event).users := by
  unfold stripeWebhook
  rw [hv]
  simp only
  cases (handleEvent users event).result <;> rfl

/-- The collection after `stripeWebhook` for a request that is not verified. -/
theorem stripeWebhook_of_rejected (constructEvent : ConstructEvent) (env : Env)
    (users : Users) (req : Request) (msg : String)
    (hv : constructEvent req.rawBody (signature req) (webhookSecret env) = .error msg) :
    stripeWebhook constructEvent env users req =
      ⟨users, [], ⟨400, .text "Webhook signature verification failed"⟩⟩ := by
  unfold stripeWebhook
  rw [hv]

/-- Handling the same event again leaves the collection as it is. -/
theorem handleEvent_idem (users : Users) (event : Event) :
    (handleEvent (handleEvent users event).users event).users =
      (handleEvent users event).users := by
  rw [handleEvent_users users event]
  cases hw : event.write with
  | none => simp only; rw [handleEvent_users, hw]
  | some u =>
    cases hq : users.whereCustomer event.object.customer with
    | nil => simp only; rw [handleEvent_users, hw, hq]
    | cons d rest =>
      simp only
      rw [handleEvent_users, hw, Users.whereCustomer_update, hq]
      simp only [List.map_cons, UserDoc.patch_id]
      exact Users.update_update users d.id u u

/-- After a write, the first document of the query carries the written fields. -/
theorem handleEvent_doc (users : Users) (event : Event) (u : SubscriptionUpdate)
    (d : UserDoc) (rest : List UserDoc) (hw : event.write = some u)
    (hq : users.whereCustomer event.object.customer = d :: rest) :
    ∃ d0, (handleEvent users event).users.doc d.id = some d0 ∧
      d0.data.subscriptionId = u.subscriptionId.stored ∧
      d0.data.subscriptionStatus = u.subscriptionStatus.stored ∧
      d0.data.priceId = u.priceId.stored ∧
      d0.data.subscriptionPeriodEnd = u.subscriptionPeriodEnd.stored := by
  obtain ⟨d1, hd1, hid⟩ := Users.doc_of_whereCustomer users _ d rest hq
  rw [handleEvent_users, hw, hq]
  simp only
  rw [Users.doc_update, hd1]
  refine ⟨d1.patch d.id u, rfl, ?_⟩
  simp [UserDoc.patch, hid, UserData.update]

/-- Handling an event does not change which document a query returns first. -/
theorem handleEvent_whereCustomer (users : Users) (event : Event) (c : String)
    (d : UserDoc) (rest : List UserDoc) (hq : users.whereCustomer c = d :: rest) :
    ∃ d1 rest1, (handleEvent users event).users.whereCustomer c = d1 :: rest1 ∧
      d1.id = d.id := by
  rw [handleEvent_users]
  cases hw : event.write with
  | none => exact ⟨d, rest, hq, rfl⟩
  | some u =>
    cases hq2 : users.whereCustomer event.object.customer with
    | nil => exact ⟨d, rest, hq, rfl⟩
    | cons d2 rest2 =>
      simp only
      rw [Users.whereCustomer_update, hq]
      exact ⟨d.patch d2.id u, rest.map (UserDoc.patch d2.id u), rfl, UserDoc.patch_id _ _ _⟩

/-- The timestamp made of a whole number of seconds of the accepted range. -/
theorem Timestamp.fromMillis_seconds (t : Int) (hmin : Timestamp.MIN_SECONDS ≤ t)
    (hmax : t ≤ Timestamp.MAX_SECONDS) :
    Timestamp.fromMillis (some (t * 1000)) = .ok ⟨t, 0⟩ := by
  have hdiv : t * 1000 / 1000 = t := by omega
  unfold Timestamp.fromMillis
  simp only [hdiv]
  rw [if_neg (by omega)]
  simp

/-- The write of a `created` or `updated` event with a first line item and a
period end of the accepted range. -/
theorem Event.write_of_upsert (event : Event) (item : SubscriptionItem)
    (items : List SubscriptionItem) (t : Int)
    (ht : event.type = "customer.subscription.created" ∨
      event.type = "customer.subscription.updated")
    (hi : event.object.items = item :: items)
    (hp : event.object.current_period_end = some t)
    (hmin : Timestamp.MIN_SECONDS ≤ t) (hmax : t ≤ Timestamp.MAX_SECONDS) :
    event.write = some
      { subscriptionId := .value event.object.id
        subscriptionStatus := .value event.object.status
        priceId := .value item.price.id
        subscriptionPeriodEnd := .value ⟨t, 0⟩ } := by
  unfold Event.write
  rw [if_pos ht, hi, hp]
  simp only [Option.map_some']
  rw [Timestamp.fromMillis_seconds t hmin hmax]

/-- The write of a `deleted` event. -/
theorem Event.write_of_deleted (event : Event)
    (ht : event.type = "customer.subscription.deleted") :
    event.write = some
      { subscriptionId := .delete
        subscriptionStatus := .value "canceled"
        priceId := .delete
        subscriptionPeriodEnd := .delete } := by
  unfold Event.write
  rw [ht]
  simp

/-! ## The claims on stripeWebhook -/

/-- C1, as stated, fails: the verified `updated` event for `cus_1` has a line
item and its customer id matches the record of `u1`, but its
`current_period_end` is 253402300800, one second past the last second that
`Timestamp.fromMillis` accepts: the handler throws before the write, answers
with status 500 and leaves the record without the fields of the event. -/
theorem stripeWebhook_period_end_out_of_range :
    exampleVerify (requestOf "farFuture").rawBody (signature (requestOf "farFuture"))
      (webhookSecret liveEnv) = .ok farFutureEvent ∧
    farFutureEvent.type = "customer.subscription.updated" ∧
    farFutureEvent.object.items = [⟨⟨"price_1"⟩⟩] ∧
    freshUsers.whereCustomer farFutureEvent.object.customer =
      [⟨"u1", ⟨some "cus_1", some "a@example.com", none, none, none, none⟩⟩] ∧
    (stripeWebhook exampleVerify liveEnv freshUsers (requestOf "farFuture")).result =
      ⟨500, .text "Webhook processing failed"⟩ ∧
    (stripeWebhook exampleVerify liveEnv freshUsers (requestOf "farFuture")).effects =
      [.firestoreQuery "cus_1"] ∧
    (stripeWebhook exampleVerify liveEnv freshUsers (requestOf "farFuture")).users.doc "u1" =
      some ⟨"u1", ⟨some "cus_1", some "a@example.com", none, none, none, none⟩⟩ := by
  refine ⟨by rfl, by rfl, by rfl, by decide, by decide, by decide, by decide⟩

/-- C1, amended: for a verified `customer.subscription.created` or
`customer.subscription.updated` event with at least one line item, with a
`current_period_end` of `t` seconds where `t` lies in the range that a
Firestore timestamp accepts, and whose customer id matches a user record,
`stripeWebhook` leaves the matched record (the first document of the query,
the only one when customer ids are unique) with `subscriptionId` the id of the
subscription, `subscriptionStatus` its status, `priceId` the price id of the
first line item and `subscriptionPeriodEnd` the timestamp of `t` seconds and
no nanoseconds, which is the timestamp at `t * 1000` milliseconds. -/
theorem stripeWebhook_sets_subscription_fields (constructEvent : ConstructEvent) (env : Env)
    (users : Users) (req : Request) (event : Event) (userDoc : UserDoc)
    (rest : List UserDoc) (item : SubscriptionItem) (items : List SubscriptionItem)
    (t : Int)
    (hv : constructEvent req.rawBody (signature req) (webhookSecret env) = .ok event)
    (ht : event.type = "customer.subscription.created" ∨
      event.type = "customer.subscription.updated")
    (hi : event.object.items = item :: items)
    (hp : event.object.current_period_end = some t)
    (hmin : Timestamp.MIN_SECONDS ≤ t) (hmax : t ≤ Timestamp.MAX_SECONDS)
    (hq : users.whereCustomer event.object.customer = userDoc :: rest) :
    ∃ d, (stripeWebhook constructEvent env users req).users.doc userDoc.id = some d ∧
      d.data.subscriptionId = some event.object.id ∧
      d.data.subscriptionStatus = some event.object.status ∧
      d.data.priceId = some item.price.id ∧
      d.data.subscriptionPeriodEnd = some ⟨t, 0⟩ ∧
      Timestamp.toMillis ⟨t, 0⟩ = t * 1000 := by
  rw [stripeWebhook_users_of_verified constructEvent env users req event hv]
  obtain ⟨d, hd, h1, h2, h3, h4⟩ := handleEvent_doc users event _ userDoc rest
    (Event.write_of_upsert event item items t ht hi hp hmin hmax) hq
  exact ⟨d, hd, h1, h2, h3, h4, by simp [Timestamp.toMillis]⟩

/-- Witness of the amended C1: the record of `u1` after the `updated` event
(status `active`, period end 1702592000). -/
theorem stripeWebhook_sets_subscription_fields_witness :
    ∃ d, (stripeWebhook exampleVerify liveEnv freshUsers (requestOf "updated")).users.doc "u1"
        = some d ∧
      d.data.subscriptionId = some "sub_1" ∧
      d.data.subscriptionStatus = some "active" ∧
      d.data.priceId = some "price_1" ∧
      d.data.subscriptionPeriodEnd = some ⟨1702592000, 0⟩ ∧
      Timestamp.toMillis ⟨1702592000, 0⟩ = 1702592000 * 1000 :=
  stripeWebhook_sets_subscription_fields exampleVerify liveEnv freshUsers (requestOf "updated")
    updatedEvent ⟨"u1", ⟨some "cus_1", some "a@example.com", none, none, none, none⟩⟩ []
    ⟨⟨"price_1"⟩⟩ [] 1702592000 (by rfl) (by decide) (by rfl) (by rfl) (by decide)
    (by decide) (by decide)

/-- C2: running `stripeWebhook` twice on the same request (verified or not)
yields the collection that running it once yields. -/
theorem stripeWebhook_idempotent (constructEvent : ConstructEvent) (env : Env)
    (users : Users) (req : Request) :
    (stripeWebhook constructEvent env
        (stripeWebhook constructEvent env users req).users req).users =
      (stripeWebhook constructEvent env users req).users := by
  cases hv : constructEvent req.rawBody (signature req) (webhookSecret env) with
  | error msg =>
    rw [stripeWebhook_of_rejected constructEvent env users req msg hv]
    simp only
    rw [stripeWebhook_of_rejected constructEvent env users req msg hv]
  | ok event =>
    rw [stripeWebhook_users_of_verified constructEvent env users req event hv,
      stripeWebhook_users_of_verified constructEvent env _ req event hv]
    exact handleEvent_idem users event

/-- C3, as stated, fails: the `created` event (time 10) processed after the
`updated` event (time 20) is not rejected, it changes the record, which ends
with the state of the older event (`incomplete`) and not of the newer one
(`active`). -/
theorem stripeWebhook_stale_event_applied :
    createdEvent.created < updatedEvent.created ∧
    createdEvent.object.customer = updatedEvent.object.customer ∧
    (stripeWebhook exampleVerify liveEnv freshUsers (requestOf "updated")).users =
      [⟨"u1", ⟨some "cus_1", some "a@example.com", some "sub_1", some "active",
        some "price_1", some ⟨1702592000, 0⟩⟩⟩] ∧
    (stripeWebhook exampleVerify liveEnv
        (stripeWebhook exampleVerify liveEnv freshUsers (requestOf "updated")).users
        (requestOf "created")).users =
      [⟨"u1", ⟨some "cus_1", some "a@example.com", some "sub_1", some "incomplete",
        some "price_1", some ⟨1700000000, 0⟩⟩⟩] := by
  refine ⟨by decide, by decide, by decide, by decide⟩

/-- C3, amended: the handler compares no timestamps.  For two verified events
for the same customer, the one processed last being a `created` or `updated`
event with a line item, a `current_period_end` of the range that a Firestore
timestamp accepts and a matching record, processing the other one first
leaves the collection exactly as processing the last one alone does, and the
matched record carries the fields of the event processed last, whatever the
timestamps of the two events. -/
theorem stripeWebhook_last_processed_wins (constructEvent : ConstructEvent) (env : Env)
    (users : Users) (req1 req2 : Request) (e1 e2 : Event) (userDoc : UserDoc)
    (rest : List UserDoc) (item : SubscriptionItem) (items : List SubscriptionItem)
    (t : Int)
    (hv1 : constructEvent req1.rawBody (signature req1) (webhookSecret env) = .ok e1)
    (hv2 : constructEvent req2.rawBody (signature req2) (webhookSecret env) = .ok e2)
    (ht : e1.type = "customer.subscription.created" ∨
      e1.type = "customer.subscription.updated")
    (hi : e1.object.items = item :: items)
    (hp : e1.object.current_period_end = some t)
    (hmin : Timestamp.MIN_SECONDS ≤ t) (hmax : t ≤ Timestamp.MAX_SECONDS)
    (hc : e2.object.customer = e1.object.customer)
    (hq : users.whereCustomer e1.object.customer = userDoc :: rest) :
    (stripeWebhook constructEvent env
        (stripeWebhook constructEvent env users req2).users req1).users =
      (stripeWebhook constructEvent env users req1).users ∧
    ∃ d, (stripeWebhook constructEvent env
        (stripeWebhook constructEvent env users req2).users req1).users.doc userDoc.id
        = some d ∧
      d.data.subscriptionId = some e1.object.id ∧
      d.data.subscriptionStatus = some e1.object.status ∧
      d.data.priceId = some item.price.id ∧
      d.data.subscriptionPeriodEnd = some ⟨t, 0⟩ := by
  have hw := Event.write_of_upsert e1 item items t ht hi hp hmin hmax
  have heq : (handleEvent (handleEvent users e2).users e1).users =
      (handleEvent users e1).users := by
    rw [handleEvent_users users e2, hc, hq]
    cases hw2 : e2.write with
    | none => rfl
    | some u2 =>
      simp only
      rw [handleEvent_users, handleEvent_users, hw, Users.whereCustomer_update, hq]
      simp only [List.map_cons, UserDoc.patch_id]
      exact Users.update_update users userDoc.id u2 _
  rw [stripeWebhook_users_of_verified constructEvent env users req2 e2 hv2,
    stripeWebhook_users_of_verified constructEvent env _ req1 e1 hv1,
    stripeWebhook_users_of_verified constructEvent env users req1 e1 hv1, heq]
  exact ⟨rfl, handleEvent_doc users e1 _ userDoc rest hw hq⟩

/-- Witness of the amended C3: the `updated` event (time 20) and then the
`created` event (time 10). -/
theorem stripeWebhook_last_processed_wins_witness :
    createdEvent.created < updatedEvent.created ∧
    ((stripeWebhook exampleVerify liveEnv
        (stripeWebhook exampleVerify liveEnv freshUsers (requestOf "updated")).users
        (requestOf "created")).users =
      (stripeWebhook exampleVerify liveEnv freshUsers (requestOf "created")).users ∧
    ∃ d, (stripeWebhook exampleVerify liveEnv
        (stripeWebhook exampleVerify liveEnv freshUsers (requestOf "updated")).users
        (requestOf "created")).users.doc "u1" = some d ∧
      d.data.subscriptionId = some "sub_1" ∧
      d.data.subscriptionStatus = some "incomplete" ∧
      d.data.priceId = some "price_1" ∧
      d.data.subscriptionPeriodEnd = some ⟨1700000000, 0⟩) :=
  ⟨by decide,
    stripeWebhook_last_processed_wins exampleVerify liveEnv freshUsers (requestOf "created")
      (requestOf "updated") createdEvent updatedEvent
      ⟨"u1", ⟨some "cus_1", some "a@example.com", none, none, none, none⟩⟩ []
      ⟨⟨"price_1"⟩⟩ [] 1700000000 (by rfl) (by rfl) (by decide) (by rfl) (by rfl)
      (by decide) (by decide) (by rfl) (by decide)⟩

/-- C4: for a record matched by the customer id, a verified
`customer.subscription.created` event followed by a verified
`customer.subscription.deleted` event for the same customer leaves the record
with `subscriptionStatus = "canceled"` and with `subscriptionId`, `priceId`
and `subscriptionPeriodEnd` absent. -/
theorem stripeWebhook_created_then_deleted (constructEvent : ConstructEvent) (env : Env)
    (users : Users) (reqC reqD : Request) (eC eD : Event) (userDoc : UserDoc)
    (rest : List UserDoc)
    (hvC : constructEvent reqC.rawBody (signature reqC) (webhookSecret env) = .ok eC)
    (hvD : constructEvent reqD.rawBody (signature reqD) (webhookSecret env) = .ok eD)
    (_htC : eC.type = "customer.subscription.created")
    (htD : eD.type = "customer.subscription.deleted")
    (_hs : eD.object.id = eC.object.id)
    (hc : eD.object.customer = eC.object.customer)
    (hq : users.whereCustomer eC.object.customer = userDoc :: rest) :
    ∃ d, (stripeWebhook constructEvent env
        (stripeWebhook constructEvent env users reqC).users reqD).users.doc userDoc.id
        = some d ∧
      d.data.subscriptionStatus = some "canceled" ∧
      d.data.subscriptionId = none ∧
      d.data.priceId = none ∧
      d.data.subscriptionPeriodEnd = none := by
  rw [stripeWebhook_users_of_verified constructEvent env users reqC eC hvC,
    stripeWebhook_users_of_verified constructEvent env _ reqD eD hvD]
  obtain ⟨d1, rest1, hq1, hid⟩ :=
    handleEvent_whereCustomer users eC eC.object.customer userDoc rest hq
  rw [← hc] at hq1
  obtain ⟨d, hd, h1, h2, h3, h4⟩ :=
    handleEvent_doc (handleEvent users eC).users eD _ d1 rest1
      (Event.write_of_deleted eD htD) hq1
  rw [hid] at hd
  exact ⟨d, hd, h2, h1, h3, h4⟩

/-- Witness of C4: the `created` and then the `deleted` event of `sub_1`. -/
theorem stripeWebhook_created_then_deleted_witness :
    ∃ d, (stripeWebhook exampleVerify liveEnv
        (stripeWebhook exampleVerify liveEnv freshUsers (requestOf "created")).users
        (requestOf "deleted")).users.doc "u1" = some d ∧
      d.data.subscriptionStatus = some "canceled" ∧
      d.data.subscriptionId = none ∧
      d.data.priceId = none ∧
      d.data.subscriptionPeriodEnd = none :=
  stripeWebhook_created_then_deleted exampleVerify liveEnv freshUsers (requestOf "created")
    (requestOf "deleted") createdEvent deletedEvent
    ⟨"u1", ⟨some "cus_1", some "a@example.com", none, none, none, none⟩⟩ []
    (by rfl) (by rfl) (by rfl) (by rfl) (by rfl) (by rfl) (by decide)

/-- C8, as stated, fails: for an event whose customer matches no record the
handler answers with the acknowledgment, the very response it gives for an
event that it applied (`updated`) and for one that it ignored (`invoice.paid`). -/
theorem stripeWebhook_unknown_customer_acknowledged :
    freshUsers.whereCustomer strangerEvent.object.customer = [] ∧
    (stripeWebhook exampleVerify liveEnv freshUsers (requestOf "stranger")).result =
      ⟨200, .received⟩ ∧
    (stripeWebhook exampleVerify liveEnv freshUsers (requestOf "stranger")).result =
      (stripeWebhook exampleVerify liveEnv freshUsers (requestOf "updated")).result ∧
    (stripeWebhook exampleVerify liveEnv freshUsers (requestOf "stranger")).result =
      (stripeWebhook exampleVerify liveEnv freshUsers (requestOf "invoice")).result := by
  refine ⟨by decide, by rfl, by rfl, by rfl⟩

/-- C8, amended: for a verified subscription created, updated or deleted event
whose customer id matches no user record, `stripeWebhook` only queries the
collection, writes nothing, and answers with the same acknowledgment
(status 200, body `{received: true}`) as for a processed or ignored event. -/
theorem stripeWebhook_unknown_customer (constructEvent : ConstructEvent) (env : Env)
    (users : Users) (req : Request) (event : Event)
    (hv : constructEvent req.rawBody (signature req) (webhookSecret env) = .ok event)
    (ht : event.type = "customer.subscription.created" ∨
      event.type = "customer.subscription.updated" ∨
      event.type = "customer.subscription.deleted")
    (hq : users.whereCustomer event.object.customer = []) :
    stripeWebhook constructEvent env users req =
      ⟨users, [.firestoreQuery event.object.customer], ⟨200, .received⟩⟩ := by
  unfold stripeWebhook
  rw [hv]
  simp only
  unfold handleEvent
  rcases ht with ht | ht | ht
  · simp [ht, hq, Response.ack]
  · simp [ht, hq, Response.ack]
  · simp [ht, hq, Response.ack]

/-- Witness of the amended C8: the event for the unknown customer `cus_9`. -/
theorem stripeWebhook_unknown_customer_witness :
    stripeWebhook exampleVerify liveEnv freshUsers (requestOf "stranger") =
      ⟨freshUsers, [.firestoreQuery "cus_9"], ⟨200, .received⟩⟩ :=
  stripeWebhook_unknown_customer exampleVerify liveEnv freshUsers (requestOf "stranger")
    strangerEvent (by rfl) (by decide) (by decide)

/-- C9: for a verified event whose type is none of `customer.subscription.created`,
`customer.subscription.updated` and `customer.subscription.deleted`,
`stripeWebhook` performs no operation on the collection, leaves it as it is
and answers with status 200 and body `{received: true}`. -/
theorem stripeWebhook_ignores_other_types (constructEvent : ConstructEvent) (env : Env)
    (users : Users) (req : Request) (event : Event)
    (hv : constructEvent req.rawBody (signature req) (webhookSecret env) = .ok event)
    (h1 : event.type ≠ "customer.subscription.created")
    (h2 : event.type ≠ "customer.subscription.updated")
    (h3 : event.type ≠ "customer.subscription.deleted") :
    stripeWebhook constructEvent env users req = ⟨users, [], ⟨200, .received⟩⟩ := by
  unfold stripeWebhook
  rw [hv]
  simp only
  unfold handleEvent
  simp [h1, h2, h3, Response.ack]

/-- Witness of C9: an `invoice.paid` event. -/
theorem stripeWebhook_ignores_other_types_witness :
    stripeWebhook exampleVerify liveEnv freshUsers (requestOf "invoice") =
      ⟨freshUsers, [], ⟨200, .received⟩⟩ :=
  stripeWebhook_ignores_other_types exampleVerify liveEnv freshUsers (requestOf "invoice")
    invoiceEvent (by rfl) (by decide) (by decide) (by decide)

/-- C10: when `constructEvent` throws for the raw body, signature header and
secret of a request, `stripeWebhook` answers with status 400, performs no
operation on the collection (no read, no write) and leaves it as it is,
whatever the body contains. -/
theorem stripeWebhook_rejects_unverified (constructEvent : ConstructEvent) (env : Env)
    (users : Users) (req : Request) (msg : String)
    (hv : constructEvent req.rawBody (signature req) (webhookSecret env) = .error msg) :
    (stripeWebhook constructEvent env users req).result.status = 400 ∧
    (stripeWebhook constructEvent env users req).effects = [] ∧
    (stripeWebhook constructEvent env users req).users = users := by
  rw [stripeWebhook_of_rejected constructEvent env users req msg hv]
  exact ⟨rfl, rfl, rfl⟩

/-- Witness of C10: a body that the verification does not accept. -/
theorem stripeWebhook_rejects_unverified_witness :
    (stripeWebhook exampleVerify liveEnv freshUsers (requestOf "forged")).result.status = 400 ∧
    (stripeWebhook exampleVerify liveEnv freshUsers (requestOf "forged")).effects = [] ∧
    (stripeWebhook exampleVerify liveEnv freshUsers (requestOf "forged")).users = freshUsers :=
  stripeWebhook_rejects_unverified exampleVerify liveEnv freshUsers (requestOf "forged")
    "No signatures found matching the expected signature for payload" (by rfl)

/-! ## The invariant on the subscription fields -/

/-- Whatever an event writes leaves the data of the document in the invariant. -/
theorem UserData.update_invariant (d : UserData) (event : Event) (u : SubscriptionUpdate)
    (hw : event.write = some u) : (d.update u).subscriptionInvariant := by
  unfold Event.write at hw
  split at hw
  · split at hw
    · exact absurd hw (by simp)
    · split at hw
      · exact absurd hw (by simp)
      · cases hw
        right
        simp [UserData.update, FieldValue.stored]
  · split at hw
    · cases hw
      left
      simp [UserData.update, FieldValue.stored]
    · exact absurd hw (by simp)

theorem handleEvent_invariant (users : Users) (event : Event)
    (h : ∀ d ∈ users, d.data.subscriptionInvariant) :
    ∀ d ∈ (handleEvent users event).users, d.data.subscriptionInvariant := by
  rw [handleEvent_users]
  cases hw : event.write with
  | none => exact h
  | some u =>
    cases hq : users.whereCustomer event.object.customer with
    | nil => exact h
    | cons d1 rest =>
      simp only
      intro d hd
      rw [Users.update_eq_map] at hd
      obtain ⟨d0, hd0, rfl⟩ := List.mem_map.mp hd
      unfold UserDoc.patch
      split
      · exact UserData.update_invariant d0.data event u hw
      · exact h d0 hd0

theorem stripeWebhook_invariant (constructEvent : ConstructEvent) (env : Env)
    (users : Users) (req : Request) (h : ∀ d ∈ users, d.data.subscriptionInvariant) :
    ∀ d ∈ (stripeWebhook constructEvent env users req).users,
      d.data.subscriptionInvariant := by
  cases hv : constructEvent req.rawBody (signature req) (webhookSecret env) with
  | error msg =>
    rw [stripeWebhook_of_rejected constructEvent env users req msg hv]
    exact h
  | ok event =>
    rw [stripeWebhook_users_of_verified constructEvent env users req event hv]
    exact handleEvent_invariant users event h

theorem Users.setMerge_invariant (users : Users) (uid customerId : String)
    (email : Option String)
    (h : ∀ d ∈ users, d.data.subscriptionInvariant) :
    ∀ d ∈ users.setMerge uid customerId email, d.data.subscriptionInvariant := by
  unfold Users.setMerge
  cases users.doc uid with
  | none =>
    simp only
    intro d hd
    rcases List.mem_append.mp hd with hd | hd
    · exact h d hd
    · rw [List.mem_singleton] at hd
      subst hd
      left
      simp
  | some d1 =>
    simp only
    intro d hd
    obtain ⟨d0, hd0, rfl⟩ := List.mem_map.mp hd
    split
    · exact h d0 hd0
    · exact h d0 hd0

theorem createStripeCustomer_invariant (customersCreate : CustomersCreate) (users : Users)
    (user : AuthUser) (h : ∀ d ∈ users, d.data.subscriptionInvariant) :
    ∀ d ∈ (createStripeCustomer customersCreate users user).users,
      d.data.subscriptionInvariant := by
  unfold createStripeCustomer
  cases customersCreate user.email user.uid with
  | error e => exact h
  | ok customer => exact Users.setMerge_invariant users user.uid customer.id user.email h

theorem run_invariant (customersCreate : CustomersCreate) (constructEvent : ConstructEvent)
    (env : Env) (calls : List Call) :
    ∀ users : Users, (∀ d ∈ users, d.data.subscriptionInvariant) →
      ∀ d ∈ run customersCreate constructEvent env users calls,
        d.data.subscriptionInvariant := by
  induction calls with
  | nil => intro users h; exact h
  | cons call calls ih =>
    intro users h
    cases call with
    | userCreated user =>
      exact ih _ (createStripeCustomer_invariant customersCreate users user h)
    | webhook req =>
      exact ih _ (stripeWebhook_invariant constructEvent env users req h)

/-- A webhook request removes a `subscriptionId` that is present only when
its verified event is `customer.subscription.deleted`. -/
theorem stripeWebhook_clears_only_on_deleted (constructEvent : ConstructEvent) (env : Env)
    (users : Users) (req : Request) (uid : String) (d d2 : UserDoc)
    (hd : users.doc uid = some d)
    (hd2 : (stripeWebhook constructEvent env users req).users.doc uid = some d2)
    (hs : d.data.subscriptionId ≠ none) (hs2 : d2.data.subscriptionId = none) :
    ∃ event, constructEvent req.rawBody (signature req) (webhookSecret env) = .ok event ∧
      event.type = "customer.subscription.deleted" := by
  cases hv : constructEvent req.rawBody (signature req) (webhookSecret env) with
  | error msg =>
    rw [stripeWebhook_of_rejected constructEvent env users req msg hv] at hd2
    rw [hd] at hd2
    cases hd2
    exact absurd hs2 hs
  | ok event =>
    refine ⟨event, rfl, ?_⟩
    rw [stripeWebhook_users_of_verified constructEvent env users req event hv,
      handleEvent_users] at hd2
    cases hw : event.write with
    | none =>
      rw [hw] at hd2
      simp only at hd2
      rw [hd] at hd2
      cases hd2
      exact absurd hs2 hs
    | some u =>
      cases hq : users.whereCustomer event.object.customer with
      | nil =>
        rw [hw, hq] at hd2
        simp only at hd2
        rw [hd] at hd2
        cases hd2
        exact absurd hs2 hs
      | cons d1 rest =>
        rw [hw, hq] at hd2
        simp only at hd2
        rw [Users.doc_update, hd] at hd2
        simp only [Option.map_some', Option.some.injEq] at hd2
        subst hd2
        unfold UserDoc.patch at hs2
        by_cases hid : d.id = d1.id
        · rw [if_pos hid] at hs2
          by_contra hne
          unfold Event.write at hw
          split at hw
          · split at hw
            · exact absurd hw (by simp)
            · split at hw
              · exact absurd hw (by simp)
              · cases hw
                simp [UserData.update, FieldValue.stored] at hs2
          · simp [hne] at hw
        · rw [if_neg hid] at hs2
          exact absurd hs2 hs

/-- C5, as stated, fails: a `customer.subscription.updated` event that carries
the status `canceled`, processed for a freshly created record, leaves the
record with `subscriptionStatus = "canceled"` and with `subscriptionId`,
`priceId` and `subscriptionPeriodEnd` present. -/
theorem run_canceled_update_keeps_fields :
    run firstCustomer exampleVerify liveEnv []
        [.userCreated ⟨"u1", some "a@example.com"⟩, .webhook (requestOf "canceled")] =
      [⟨"u1", ⟨some "cus_1", some "a@example.com", some "sub_1", some "canceled",
        some "price_1", some ⟨1702592000, 0⟩⟩⟩] := by
  decide

/-- C5, amended, in three parts, for every state reachable from the empty
collection by any sequence of account creations and webhook requests.
First, each record has `subscriptionId`, `priceId` and `subscriptionPeriodEnd`
either all absent, with `subscriptionStatus` unset or `"canceled"`, or all
present together with a `subscriptionStatus`.  Second, a verified created or
updated event with a line item, an accepted period end and a matching record
leaves the record with the four fields present and with the status that the
event carries, whatever it is, `"canceled"` included.  Third, a webhook
request removes a `subscriptionId` that is present only when its verified
event is `customer.subscription.deleted`. -/
theorem run_subscription_invariant (customersCreate : CustomersCreate)
    (constructEvent : ConstructEvent) (env : Env) (calls : List Call) :
    (∀ d ∈ run customersCreate constructEvent env [] calls,
      d.data.subscriptionInvariant) ∧
    (∀ (req : Request) (event : Event) (userDoc : UserDoc) (rest : List UserDoc)
        (item : SubscriptionItem) (items : List SubscriptionItem) (t : Int),
      constructEvent req.rawBody (signature req) (webhookSecret env) = .ok event →
      (event.type = "customer.subscription.created" ∨
        event.type = "customer.subscription.updated") →
      event.object.items = item :: items →
      event.object.current_period_end = some t →
      Timestamp.MIN_SECONDS ≤ t → t ≤ Timestamp.MAX_SECONDS →
      (run customersCreate constructEvent env [] calls).whereCustomer event.object.customer
        = userDoc :: rest →
      ∃ d, (stripeWebhook constructEvent env
            (run customersCreate constructEvent env [] calls) req).users.doc userDoc.id
          = some d ∧
        d.data.subscriptionStatus = some event.object.status ∧
        d.data.subscriptionId = some event.object.id ∧
        d.data.priceId = some item.price.id ∧
        d.data.subscriptionPeriodEnd = some ⟨t, 0⟩) ∧
    (∀ (req : Request) (uid : String) (d d2 : UserDoc),
      (run customersCreate constructEvent env [] calls).doc uid = some d →
      (stripeWebhook constructEvent env
          (run customersCreate constructEvent env [] calls) req).users.doc uid = some d2 →
      d.data.subscriptionId ≠ none → d2.data.subscriptionId = none →
      ∃ event, constructEvent req.rawBody (signature req) (webhookSecret env) = .ok event ∧
        event.type = "customer.subscription.deleted") := by
  refine ⟨run_invariant customersCreate constructEvent env calls []
    (fun _ hd => absurd hd (List.not_mem_nil _)), ?_, ?_⟩
  · intro req event userDoc rest item items t hv ht hi hp hmin hmax hq
    rw [stripeWebhook_users_of_verified constructEvent env _ req event hv]
    obtain ⟨d, hd, h1, h2, h3, h4⟩ := handleEvent_doc _ event _ userDoc rest
      (Event.write_of_upsert event item items t ht hi hp hmin hmax) hq
    exact ⟨d, hd, h2, h1, h3, h4⟩
  · intro req uid d d2 hd hd2 hs hs2
    exact stripeWebhook_clears_only_on_deleted constructEvent env _ req uid d d2 hd hd2 hs hs2

/-- Witness of the amended C5.  First part: the record of `u1` after its
creation, a `created` event and a `deleted` event.  Second part: the `updated`
event with the status `canceled` on the freshly created record.  Third part:
the `deleted` event on the record that the `created` event filled. -/
theorem run_subscription_invariant_witness :
    ((⟨"u1", ⟨some "cus_1", some "a@example.com", none, some "canceled", none, none⟩⟩ :
        UserDoc) ∈
      run firstCustomer exampleVerify liveEnv []
        [.userCreated ⟨"u1", some "a@example.com"⟩, .webhook (requestOf "created"),
          .webhook (requestOf "deleted")] ∧
    (⟨"u1", ⟨some "cus_1", some "a@example.com", none, some "canceled", none, none⟩⟩ :
      UserDoc).data.subscriptionInvariant) ∧
    (∃ d, (stripeWebhook exampleVerify liveEnv
          (run firstCustomer exampleVerify liveEnv []
            [.userCreated ⟨"u1", some "a@example.com"⟩])
          (requestOf "canceled")).users.doc "u1" = some d ∧
        d.data.subscriptionStatus = some "canceled" ∧
        d.data.subscriptionId = some "sub_1" ∧
        d.data.priceId = some "price_1" ∧
        d.data.subscriptionPeriodEnd = some ⟨1702592000, 0⟩) ∧
    (∃ event, exampleVerify (requestOf "deleted").rawBody (signature (requestOf "deleted"))
        (webhookSecret liveEnv) = .ok event ∧
      event.type = "customer.subscription.deleted") :=
  ⟨⟨by decide,
      (run_subscription_invariant firstCustomer exampleVerify liveEnv
        [.userCreated ⟨"u1", some "a@example.com"⟩, .webhook (requestOf "created"),
          .webhook (requestOf "deleted")]).1
        ⟨"u1", ⟨some "cus_1", some "a@example.com", none, some "canceled", none, none⟩⟩
        (by decide)⟩,
    (run_subscription_invariant firstCustomer exampleVerify liveEnv
      [.userCreated ⟨"u1", some "a@example.com"⟩]).2.1
      (requestOf "canceled") canceledUpdateEvent
      ⟨"u1", ⟨some "cus_1", some "a@example.com", none, none, none, none⟩⟩ []
      ⟨⟨"price_1"⟩⟩ [] 1702592000 (by rfl) (by decide) (by rfl) (by rfl) (by decide)
      (by decide) (by decide),
    (run_subscription_invariant firstCustomer exampleVerify liveEnv
      [.userCreated ⟨"u1", some "a@example.com"⟩, .webhook (requestOf "created")]).2.2
      (requestOf "deleted") "u1"
      ⟨"u1", ⟨some "cus_1", some "a@example.com", some "sub_1", some "incomplete",
        some "price_1", some ⟨1700000000, 0⟩⟩⟩
      ⟨"u1", ⟨some "cus_1", some "a@example.com", none, some "canceled", none, none⟩⟩
      (by decide) (by decide) (by decide) (by decide)⟩

/-! ## The claims on the callables and on createStripeCustomer -/

/-- Reading a document after a `set` with merge on an existing document. -/
theorem Users.doc_setMerge (users : Users) (uid customerId : String)
    (email : Option String) (d0 : UserDoc) (hd : users.doc uid = some d0) :
    (users.setMerge uid customerId email).doc uid =
      some { d0 with
        data := { d0.data with stripeCustomerId := some customerId, email := email } } := by
  have hid : d0.id = uid := by
    have := List.find?_some hd
    simpa using this
  unfold Users.setMerge
  rw [hd]
  simp only
  have key : ∀ l : List UserDoc, List.find? (fun d => d.id == uid) l = some d0 →
      List.find? (fun d => d.id == uid)
        (l.map (fun d =>
          if d.id = uid then
            { d with
              data := { d.data with stripeCustomerId := some customerId, email := email } }
          else d)) =
      some { d0 with
        data := { d0.data with stripeCustomerId := some customerId, email := email } } := by
    intro l
    induction l with
    | nil => intro h; simp at h
    | cons a l ih =>
      intro h
      by_cases ha : a.id = uid
      · simp only [List.find?_cons, ha, beq_self_eq_true] at h
        cases h
        simp [List.find?_cons, ha]
      · have hne : (a.id == uid) = false := by simpa using ha
        simp only [List.find?_cons, hne] at h
        simp only [List.map_cons, if_neg ha, List.find?_cons, hne]
        exact ih h
  exact key users hd

/-- A caller whose record has no usable `stripeCustomerId` receives the error
code `internal` from `createSubscription`, and the processor is not called. -/
theorem createSubscription_unlinked (subscriptionsCreate : SubscriptionsCreate)
    (users : Users) (data : SubscriptionData) (userId : String) (userDoc : UserDoc)
    (hd : users.doc userId = some userDoc)
    (hc : truthy userDoc.data.stripeCustomerId = false) :
    createSubscription subscriptionsCreate users data ⟨some userId⟩ =
      ⟨users, [.firestoreGet userId],
        .error ⟨"internal", "User has no associated Stripe customer"⟩⟩ := by
  unfold createSubscription createSubscriptionTry
  simp only [hd]
  cases hs : userDoc.data.stripeCustomerId with
  | none => rfl
  | some c =>
    have : c = "" := by simpa [truthy, hs] using hc
    subst this
    rfl

/-- The same for `createCustomerPortalSession`. -/
theorem createCustomerPortalSession_unlinked (sessionsCreate : PortalSessionsCreate)
    (users : Users) (data : PortalData) (userId : String) (userDoc : UserDoc)
    (hd : users.doc userId = some userDoc)
    (hc : truthy userDoc.data.stripeCustomerId = false) :
    createCustomerPortalSession sessionsCreate users data ⟨some userId⟩ =
      ⟨users, [.firestoreGet userId], .error ⟨"internal", "No Stripe customer found"⟩⟩ := by
  unfold createCustomerPortalSession createCustomerPortalSessionTry
  simp only [hd]
  cases hs : userDoc.data.stripeCustomerId with
  | none => rfl
  | some c =>
    have : c = "" := by simpa [truthy, hs] using hc
    subst this
    rfl

/-- C6 on the code: for the authenticated user `u1`, whose record exists without
a `stripeCustomerId`, the `try` block throws the `failed-precondition` error and
calls the processor for nothing, but the `catch` block replaces the error: the
caller of `createSubscription` and of `createCustomerPortalSession` receives
the code `internal`, not `failed-precondition`. -/
theorem createSubscription_unlinked_seen_as_internal :
    (createSubscriptionTry exampleSubscriptions unlinkedUsers (some "price_1") "u1").result =
      .error (.https ⟨"failed-precondition", "User has no associated Stripe customer"⟩) ∧
    createSubscription exampleSubscriptions unlinkedUsers ⟨some "price_1"⟩ ⟨some "u1"⟩ =
      ⟨unlinkedUsers, [.firestoreGet "u1"],
        .error ⟨"internal", "User has no associated Stripe customer"⟩⟩ ∧
    (createCustomerPortalSessionTry exampleSessions unlinkedUsers
        (some "https://app.example.com/account") "u1").result =
      .error (.https ⟨"failed-precondition", "No Stripe customer found"⟩) ∧
    createCustomerPortalSession exampleSessions unlinkedUsers
        ⟨some "https://app.example.com/account"⟩ ⟨some "u1"⟩ =
      ⟨unlinkedUsers, [.firestoreGet "u1"],
        .error ⟨"internal", "No Stripe customer found"⟩⟩ := by
  refine ⟨by rfl, by rfl, by rfl, by rfl⟩

/-- C7, as stated, fails: for the account `u1`, already linked to `cus_1`,
`createStripeCustomer` calls `stripe.customers.create` again and replaces the
stored `stripeCustomerId` by the id of the new customer `cus_2`. -/
theorem createStripeCustomer_links_again :
    freshUsers.doc "u1" =
      some ⟨"u1", ⟨some "cus_1", some "a@example.com", none, none, none, none⟩⟩ ∧
    (createStripeCustomer secondCustomer freshUsers ⟨"u1", some "a@example.com"⟩).effects =
      [.stripeCustomersCreate (some "a@example.com") "u1",
        .firestoreSet "u1" "cus_2" (some "a@example.com")] ∧
    (createStripeCustomer secondCustomer freshUsers ⟨"u1", some "a@example.com"⟩).users =
      [⟨"u1", ⟨some "cus_2", some "a@example.com", none, none, none, none⟩⟩] := by
  refine ⟨by rfl, by rfl, by rfl⟩

/-- C7, amended: `createStripeCustomer` does not look for an existing link.  For
an account whose record already has a `stripeCustomerId`, running it again
calls `stripe.customers.create` again and, when the call succeeds for a user
with an email address, writes the id of the customer just created over the
stored `stripeCustomerId`; the subscription fields of the record are kept. -/
theorem createStripeCustomer_overwrites_link (customersCreate : CustomersCreate)
    (users : Users) (user : AuthUser) (userDoc : UserDoc) (linked email : String)
    (customer : Customer)
    (hd : users.doc user.uid = some userDoc)
    (_hl : userDoc.data.stripeCustomerId = some linked)
    (he : user.email = some email)
    (hc : customersCreate user.email user.uid = .ok customer) :
    (createStripeCustomer customersCreate users user).effects =
      [.stripeCustomersCreate user.email user.uid,
        .firestoreSet user.uid customer.id (some email)] ∧
    (createStripeCustomer customersCreate users user).result = .ok customer ∧
    (createStripeCustomer customersCreate users user).users.doc user.uid =
      some { userDoc with
        data := { userDoc.data with
          stripeCustomerId := some customer.id, email := some email } } := by
  unfold createStripeCustomer
  rw [hc]
  simp only [he, true_and]
  exact Users.doc_setMerge users user.uid customer.id (some email) userDoc hd

/-- Witness of the amended C7: the account `u1`, linked to `cus_1`, and a
processor that creates `cus_2`. -/
theorem createStripeCustomer_overwrites_link_witness :
    (createStripeCustomer secondCustomer freshUsers ⟨"u1", some "a@example.com"⟩).effects =
      [.stripeCustomersCreate (some "a@example.com") "u1",
        .firestoreSet "u1" "cus_2" (some "a@example.com")] ∧
    (createStripeCustomer secondCustomer freshUsers ⟨"u1", some "a@example.com"⟩).result =
      .ok ⟨"cus_2"⟩ ∧
    (createStripeCustomer secondCustomer freshUsers ⟨"u1", some "a@example.com"⟩).users.doc "u1" =
      some ⟨"u1", ⟨some "cus_2", some "a@example.com", none, none, none, none⟩⟩ :=
  createStripeCustomer_overwrites_link secondCustomer freshUsers ⟨"u1", some "a@example.com"⟩
    ⟨"u1", ⟨some "cus_1", some "a@example.com", none, none, none, none⟩⟩ "cus_1"
    "a@example.com" ⟨"cus_2"⟩ (by rfl) (by rfl) (by rfl) (by rfl)

end StripeSubscription
